import Mathlib

/-!
Verification development for the pantrypal merchant backend
(`legacy/merchant-server-python`).  We shallowly embed the inventory
reservation logic (`db.py`, `reserve_stock`) and the agent-run / cart-draft
persistence routes (`routes/agent_state.py`) and prove the specified
properties about these embeddings.

Modelling conventions:
* SQLite tables become Lean lists of row structures; primary-key uniqueness
  becomes a `Nodup` hypothesis on the key column where a proof needs it.
* SQLAlchemy `Integer` columns become `Int`; nullable columns become
  `Option _`.  `Float` columns (`quantity`, `confidence` of line items) and
  JSON columns are only stored and echoed by the code under verification,
  never computed with, so they are modelled as `Int` / `Option String`
  scalars without loss.
* Python's `x or y` on strings treats the empty string as absent; this is
  modelled by `pyOr`.  `x is not None` checks are exact `Option` matches.
* `str(uuid.uuid4())` identifier generation is modelled by passing the
  generated identifier in as a parameter (`genId`); freshness of generated
  identifiers is stated as an explicit hypothesis where needed.
-/

/-! ## Inventory (`db.py`, table `inventory`, `reserve_stock`) -/

/-- A row of the `inventory` table: `product_id` primary key, nullable
integer `quantity` (null = never initialized). -/
structure InvRow where
  product_id : String
  quantity : Option Int
deriving DecidableEq, Repr

/-- The `WHERE` clause of the conditional decrement:
`product_id == pid AND quantity >= q`.  SQL comparison with NULL is not
satisfied, hence a null quantity never matches. -/
def rowMatches (r : InvRow) (pid : String) (q : Int) : Bool :=
  r.product_id == pid &&
    (match r.quantity with
     | none => false
     | some s => q ≤ s)

/-- Effect of `UPDATE inventory SET quantity = quantity - q WHERE ...` on a
single row. -/
def decRow (r : InvRow) (pid : String) (q : Int) : InvRow :=
  if rowMatches r pid q then { r with quantity := r.quantity.map (fun s => s - q) } else r

/-- Table after executing the conditional decrement statement. -/
def condDecTable (inv : List InvRow) (pid : String) (q : Int) : List InvRow :=
  inv.map (fun r => decRow r pid q)

/-- `result.rowcount > 0` for the conditional decrement: some row matched. -/
def condDecHit (inv : List InvRow) (pid : String) (q : Int) : Bool :=
  inv.any (fun r => rowMatches r pid q)

/-- `session.get(Inventory, product_id)`: primary-key lookup. -/
def invGet (inv : List InvRow) (pid : String) : Option InvRow :=
  inv.find? (fun r => r.product_id == pid)

/-- Effect of `existing.quantity = fallback_quantity` on the table: set the
quantity of the product's row. -/
def setQuantityTable (inv : List InvRow) (pid : String) (f : Int) : List InvRow :=
  inv.map (fun r => if r.product_id == pid then { r with quantity := some f } else r)

/-- `db.reserve_stock(session, product_id, quantity, fallback_quantity)`:
execute the conditional decrement; on a hit return `true`.  Otherwise, with
no fallback return `false`; with a fallback, insert a row seeded with the
fallback if absent, or set a null quantity to the fallback, then re-execute
the same statement and return whether it hit. -/
def reserve_stock (inv : List InvRow) (pid : String) (q : Int)
    (fallback : Option Int) : List InvRow × Bool :=
  let inv1 := condDecTable inv pid q
  if condDecHit inv pid q then
    (inv1, true)
  else
    match fallback with
    | none => (inv1, false)
    | some f =>
      match invGet inv1 pid with
      | none =>
        let inv2 := inv1 ++ [⟨pid, some f⟩]
        (condDecTable inv2 pid q, condDecHit inv2 pid q)
      | some existing =>
        let inv2 :=
          if existing.quantity = none then setQuantityTable inv1 pid f
          else inv1
        (condDecTable inv2 pid q, condDecHit inv2 pid q)

/-- Run a sequence of `reserve_stock` calls against one product, all with
the same requested quantity `q` and per-call fallback options; return the
final inventory and the number of successful reservations. -/
def runReservations (inv : List InvRow) (pid : String) (q : Int) :
    List (Option Int) → List InvRow × Nat
  | [] => (inv, 0)
  | fb :: rest =>
    let r1 := reserve_stock inv pid q fb
    let r2 := runReservations r1.1 pid q rest
    (r2.1, (if r1.2 then 1 else 0) + r2.2)

/-! ## Agent runs (`routes/agent_state.py`) -/

/-- `AgentRunState` enum from `routes/agent_state.py`. -/
inductive AgentRunState where
  | DISCOVER_MERCHANT
  | CHECK_CAPABILITIES
  | RESOLVE_INGREDIENTS
  | BUILD_CART_DRAFT
  | QUOTE_CART
  | AWAITING_APPROVAL
  | CHECKOUT
  | ORDER_CREATED
  | ORDER_TRACKING
  | FAILED
deriving DecidableEq, Repr

/-- The `.value` string of an `AgentRunState` member. -/
def AgentRunState.value : AgentRunState → String
  | .DISCOVER_MERCHANT => "DISCOVER_MERCHANT"
  | .CHECK_CAPABILITIES => "CHECK_CAPABILITIES"
  | .RESOLVE_INGREDIENTS => "RESOLVE_INGREDIENTS"
  | .BUILD_CART_DRAFT => "BUILD_CART_DRAFT"
  | .QUOTE_CART => "QUOTE_CART"
  | .AWAITING_APPROVAL => "AWAITING_APPROVAL"
  | .CHECKOUT => "CHECKOUT"
  | .ORDER_CREATED => "ORDER_CREATED"
  | .ORDER_TRACKING => "ORDER_TRACKING"
  | .FAILED => "FAILED"

/-- Python `x or y` for an optional string: `None` and the empty string are
both falsy, so either yields the default. -/
def pyOr (x : Option String) (default : String) : String :=
  match x with
  | none => default
  | some s => if s = "" then default else s

/-- A row of the `agent_runs` table (`db.AgentRun`). -/
structure AgentRun where
  id : String
  user_id : Option String
  device_id : Option String
  recipe_id : Option String
  merchant_base_url : Option String
  store_id : Option String
  created_at : String
  updated_at : String
  state : String
  failure_code : Option String
  failure_detail : Option String
  cart_draft_id : Option String
  order_id : Option String
deriving DecidableEq, Repr

/-- `AgentRunPayload` request model: every field optional (absent = `None`). -/
structure AgentRunPayload where
  id : Option String := none
  user_id : Option String := none
  device_id : Option String := none
  recipe_id : Option String := none
  merchant_base_url : Option String := none
  store_id : Option String := none
  created_at : Option String := none
  updated_at : Option String := none
  state : Option AgentRunState := none
  failure_code : Option String := none
  failure_detail : Option String := none
  cart_draft_id : Option String := none
  order_id : Option String := none
deriving DecidableEq, Repr

/-- The agent-run half of the transactional store: the `agent_runs` table. -/
def AgentRunTable := List AgentRun

/-- `session.get(AgentRun, agent_run_id)`: primary-key lookup. -/
def dbGetAgentRun (tbl : List AgentRun) (agent_run_id : String) : Option AgentRun :=
  tbl.find? (fun r => r.id == agent_run_id)

/-- HTTP error raised by the handlers (`HTTPException`). -/
inductive HttpError where
  | notFound (detail : String)
deriving DecidableEq, Repr

/-- The field-by-field `if payload.x is not None: existing.x = payload.x`
chain of the `POST /agent-runs` handler's update branch, finishing with
`existing.updated_at = payload.updated_at or now_iso`.  Note
`payload.created_at` and `payload.id` are not applied. -/
def upsertPatchAgentRun (existing : AgentRun) (payload : AgentRunPayload)
    (now_iso : String) : AgentRun :=
  { existing with
    user_id := payload.user_id.or existing.user_id
    device_id := payload.device_id.or existing.device_id
    recipe_id := payload.recipe_id.or existing.recipe_id
    merchant_base_url := payload.merchant_base_url.or existing.merchant_base_url
    store_id := payload.store_id.or existing.store_id
    state := match payload.state with
      | some s => s.value
      | none => existing.state
    failure_code := payload.failure_code.or existing.failure_code
    failure_detail := payload.failure_detail.or existing.failure_detail
    cart_draft_id := payload.cart_draft_id.or existing.cart_draft_id
    order_id := payload.order_id.or existing.order_id
    updated_at := pyOr payload.updated_at now_iso }

/-- The identical field-by-field chain as it appears (duplicated) in the
`PATCH /agent-runs/{id}` handler.  `payload.created_at` and `payload.id`
are again not applied. -/
def updatePatchAgentRun (existing : AgentRun) (payload : AgentRunPayload)
    (now_iso : String) : AgentRun :=
  { existing with
    user_id := payload.user_id.or existing.user_id
    device_id := payload.device_id.or existing.device_id
    recipe_id := payload.recipe_id.or existing.recipe_id
    merchant_base_url := payload.merchant_base_url.or existing.merchant_base_url
    store_id := payload.store_id.or existing.store_id
    state := match payload.state with
      | some s => s.value
      | none => existing.state
    failure_code := payload.failure_code.or existing.failure_code
    failure_detail := payload.failure_detail.or existing.failure_detail
    cart_draft_id := payload.cart_draft_id.or existing.cart_draft_id
    order_id := payload.order_id.or existing.order_id
    updated_at := pyOr payload.updated_at now_iso }

/-- The fresh record built by the create branch of `POST /agent-runs`. -/
def mkAgentRun (agent_run_id : String) (payload : AgentRunPayload)
    (now_iso : String) : AgentRun :=
  { id := agent_run_id
    user_id := payload.user_id
    device_id := payload.device_id
    recipe_id := payload.recipe_id
    merchant_base_url := payload.merchant_base_url
    store_id := payload.store_id
    created_at := pyOr payload.created_at now_iso
    updated_at := pyOr payload.updated_at now_iso
    state := match payload.state with
      | some s => s.value
      | none => AgentRunState.DISCOVER_MERCHANT.value
    failure_code := payload.failure_code
    failure_detail := payload.failure_detail
    cart_draft_id := payload.cart_draft_id
    order_id := payload.order_id }

/-- `POST /agent-runs` (`upsert_agent_run`): resolve the id
(`payload.id or str(uuid.uuid4())`, the generated uuid passed as `genId`);
if a record exists merge-patch it, else insert a fresh record; return the
(serialized) record and the table after commit. -/
def upsert_agent_run (tbl : List AgentRun) (payload : AgentRunPayload)
    (genId now_iso : String) : AgentRun × List AgentRun :=
  let agent_run_id := pyOr payload.id genId
  match dbGetAgentRun tbl agent_run_id with
  | some existing =>
    let updated := upsertPatchAgentRun existing payload now_iso
    (updated, tbl.map (fun r => if r.id == agent_run_id then updated else r))
  | none =>
    let agent_run := mkAgentRun agent_run_id payload now_iso
    (agent_run, tbl ++ [agent_run])

/-- `PATCH /agent-runs/{id}` (`update_agent_run`): 404 if the id is unknown
(leaving the table untouched), else merge-patch and return the record. -/
def update_agent_run (tbl : List AgentRun) (agent_run_id : String)
    (payload : AgentRunPayload) (now_iso : String) :
    Except HttpError AgentRun × List AgentRun :=
  match dbGetAgentRun tbl agent_run_id with
  | none => (.error (.notFound "Agent run not found."), tbl)
  | some existing =>
    let updated := updatePatchAgentRun existing payload now_iso
    (.ok updated, tbl.map (fun r => if r.id == agent_run_id then updated else r))

/-- `GET /agent-runs/{id}` (`get_agent_run` route): 404 if unknown, else the
record; reads never mutate the table. -/
def get_agent_run (tbl : List AgentRun) (agent_run_id : String) :
    Except HttpError AgentRun :=
  match dbGetAgentRun tbl agent_run_id with
  | none => .error (.notFound "Agent run not found.")
  | some agent_run => .ok agent_run

/-! ## Cart drafts (`routes/agent_state.py`, tables `cart_drafts`,
`cart_draft_line_items`, `cart_draft_alternatives`) -/

/-- A row of the `cart_drafts` table (`db.CartDraft`). -/
structure CartDraft where
  id : String
  agent_run_id : Option String
  recipe_id : Option String
  servings : Option Int
  pantry_items_removed : Option String
  policies : Option String
  quote_summary : Option String
  checkout_session_id : Option String
  cart_hash : Option String
  quote_hash : Option String
  created_at : String
  updated_at : String
deriving DecidableEq, Repr

/-- A row of the `cart_draft_line_items` table (`db.CartDraftLineItem`). -/
structure CartDraftLineItem where
  id : String
  cart_draft_id : String
  ingredient_key : String
  canonical_ingredient_json : Option String
  primary_sku_json : Option String
  quantity : Int
  unit : Option String
  confidence : Option Int
  chosen_reason : Option String
  substitution_policy_json : Option String
  line_total_cents : Option Int
deriving DecidableEq, Repr

/-- A row of the `cart_draft_alternatives` table (`db.CartDraftAlternative`). -/
structure CartDraftAlternative where
  id : String
  line_item_id : String
  rank : Int
  sku_json : Option String
  score_breakdown_json : Option String
  reason : Option String
  confidence : Option Int
deriving DecidableEq, Repr

/-- `CartDraftPayload` request model: every field optional. -/
structure CartDraftPayload where
  id : Option String := none
  agent_run_id : Option String := none
  recipe_id : Option String := none
  servings : Option Int := none
  pantry_items_removed : Option String := none
  policies : Option String := none
  quote_summary : Option String := none
  checkout_session_id : Option String := none
  cart_hash : Option String := none
  quote_hash : Option String := none
  created_at : Option String := none
  updated_at : Option String := none
deriving DecidableEq, Repr

/-- `CartDraftAlternativePayload` with its identifier already resolved: the
source computes `alt.id or str(uuid.uuid4())`; the resolved result is the
`id` field here (freshness of a generated uuid is a theorem hypothesis). -/
structure AltInput where
  id : String
  rank : Int
  sku_json : Option String := none
  score_breakdown_json : Option String := none
  reason : Option String := none
  confidence : Option Int := none
deriving DecidableEq, Repr

/-- `CartDraftLineItemPayload` with its identifier already resolved
(`line.id or str(uuid.uuid4())`), carrying its nested alternatives. -/
structure LineItemInput where
  id : String
  ingredient_key : String
  canonical_ingredient_json : Option String := none
  primary_sku_json : Option String := none
  quantity : Int
  unit : Option String := none
  confidence : Option Int := none
  chosen_reason : Option String := none
  substitution_policy_json : Option String := none
  line_total_cents : Option Int := none
  alternatives : List AltInput := []
deriving DecidableEq, Repr

/-- `CartDraftUpsertPayload`: the parent draft payload plus line items. -/
structure CartUpsertInput where
  cart : CartDraftPayload
  line_items : List LineItemInput := []
deriving DecidableEq, Repr

/-- The cart-draft slice of the transactional store: the three tables. -/
structure CartState where
  drafts : List CartDraft
  lineItems : List CartDraftLineItem
  alternatives : List CartDraftAlternative
deriving DecidableEq, Repr

/-- `session.get(CartDraft, cart_draft_id)`: primary-key lookup. -/
def dbGetCartDraft (st : CartState) (cart_draft_id : String) : Option CartDraft :=
  st.drafts.find? (fun d => d.id == cart_draft_id)

/-- `db.get_cart_draft_line_items`: select line items of one draft. -/
def get_cart_draft_line_items (st : CartState) (cart_draft_id : String) :
    List CartDraftLineItem :=
  st.lineItems.filter (fun li => li.cart_draft_id == cart_draft_id)

/-- `db.get_cart_draft_alternatives`: select alternatives of one line item. -/
def get_cart_draft_alternatives (st : CartState) (line_item_id : String) :
    List CartDraftAlternative :=
  st.alternatives.filter (fun a => a.line_item_id == line_item_id)

/-- The `db.CartDraftLineItem(...)` record built for one supplied line. -/
def mkLineItem (cart_draft_id : String) (line : LineItemInput) : CartDraftLineItem :=
  { id := line.id
    cart_draft_id := cart_draft_id
    ingredient_key := line.ingredient_key
    canonical_ingredient_json := line.canonical_ingredient_json
    primary_sku_json := line.primary_sku_json
    quantity := line.quantity
    unit := line.unit
    confidence := line.confidence
    chosen_reason := line.chosen_reason
    substitution_policy_json := line.substitution_policy_json
    line_total_cents := line.line_total_cents }

/-- The `db.CartDraftAlternative(...)` record built for one supplied
alternative of the line with id `line_id`. -/
def mkAlternative (line_id : String) (alt : AltInput) : CartDraftAlternative :=
  { id := alt.id
    line_item_id := line_id
    rank := alt.rank
    sku_json := alt.sku_json
    score_breakdown_json := alt.score_breakdown_json
    reason := alt.reason
    confidence := alt.confidence }

/-- `_replace_cart_line_items`: read the draft's current line items, delete
all alternatives referencing them, delete the draft's line items, then
insert the supplied line items and, per item, its supplied alternatives. -/
def replace_cart_line_items (st : CartState) (cart_draft_id : String)
    (line_items : List LineItemInput) : CartState :=
  let existing_items := get_cart_draft_line_items st cart_draft_id
  let existing_ids := existing_items.map (fun item => item.id)
  let altsAfterDelete :=
    st.alternatives.filter (fun a => !(existing_ids.contains a.line_item_id))
  let itemsAfterDelete :=
    st.lineItems.filter (fun li => !(li.cart_draft_id == cart_draft_id))
  { st with
    lineItems := itemsAfterDelete ++ line_items.map (fun l => mkLineItem cart_draft_id l)
    alternatives := altsAfterDelete ++
      line_items.flatMap (fun l => l.alternatives.map (fun a => mkAlternative l.id a)) }

/-- The merge-patch field chain of the `POST /cart-drafts` handler's update
branch (each `if cart_payload.x is not None` assignment, then
`existing.updated_at = cart_payload.updated_at or now_iso`).  Neither
`payload.id` nor `payload.created_at` is applied. -/
def upsertPatchCartDraft (existing : CartDraft) (payload : CartDraftPayload)
    (now_iso : String) : CartDraft :=
  { existing with
    agent_run_id := payload.agent_run_id.or existing.agent_run_id
    recipe_id := payload.recipe_id.or existing.recipe_id
    servings := payload.servings.or existing.servings
    pantry_items_removed := payload.pantry_items_removed.or existing.pantry_items_removed
    policies := payload.policies.or existing.policies
    quote_summary := payload.quote_summary.or existing.quote_summary
    checkout_session_id := payload.checkout_session_id.or existing.checkout_session_id
    cart_hash := payload.cart_hash.or existing.cart_hash
    quote_hash := payload.quote_hash.or existing.quote_hash
    updated_at := pyOr payload.updated_at now_iso }

/-- The identical merge-patch chain as duplicated in the
`PATCH /cart-drafts/{id}` handler. -/
def updatePatchCartDraft (existing : CartDraft) (payload : CartDraftPayload)
    (now_iso : String) : CartDraft :=
  { existing with
    agent_run_id := payload.agent_run_id.or existing.agent_run_id
    recipe_id := payload.recipe_id.or existing.recipe_id
    servings := payload.servings.or existing.servings
    pantry_items_removed := payload.pantry_items_removed.or existing.pantry_items_removed
    policies := payload.policies.or existing.policies
    quote_summary := payload.quote_summary.or existing.quote_summary
    checkout_session_id := payload.checkout_session_id.or existing.checkout_session_id
    cart_hash := payload.cart_hash.or existing.cart_hash
    quote_hash := payload.quote_hash.or existing.quote_hash
    updated_at := pyOr payload.updated_at now_iso }

/-- The fresh `db.CartDraft(...)` built by the create branch. -/
def mkCartDraft (cart_id : String) (payload : CartDraftPayload)
    (now_iso : String) : CartDraft :=
  { id := cart_id
    agent_run_id := payload.agent_run_id
    recipe_id := payload.recipe_id
    servings := payload.servings
    pantry_items_removed := payload.pantry_items_removed
    policies := payload.policies
    quote_summary := payload.quote_summary
    checkout_session_id := payload.checkout_session_id
    cart_hash := payload.cart_hash
    quote_hash := payload.quote_hash
    created_at := pyOr payload.created_at now_iso
    updated_at := pyOr payload.updated_at now_iso }

/-- `POST /cart-drafts` (`upsert_cart_draft`): resolve the id; if the draft
exists merge-patch its fields, else insert a fresh draft; in both cases
replace the full line-item/alternative subtree; return the (possibly
updated) parent record and the state after commit. -/
def upsert_cart_draft (st : CartState) (payload : CartUpsertInput)
    (genId now_iso : String) : CartDraft × CartState :=
  let cart_id := pyOr payload.cart.id genId
  match dbGetCartDraft st cart_id with
  | some existing =>
    let updated := upsertPatchCartDraft existing payload.cart now_iso
    let st1 := { st with
      drafts := st.drafts.map (fun d => if d.id == cart_id then updated else d) }
    (updated, replace_cart_line_items st1 cart_id payload.line_items)
  | none =>
    let cart := mkCartDraft cart_id payload.cart now_iso
    let st1 := { st with drafts := st.drafts ++ [cart] }
    (cart, replace_cart_line_items st1 cart_id payload.line_items)

/-- The response body of the cart-draft routes: the parent plus the re-read
current line items, each paired with its current alternatives. -/
def cartDraftResponse (st : CartState) (cart : CartDraft) (cart_id : String) :
    CartDraft × List (CartDraftLineItem × List CartDraftAlternative) :=
  (cart,
   (get_cart_draft_line_items st cart_id).map
     (fun line => (line, get_cart_draft_alternatives st line.id)))

/-- `PATCH /cart-drafts/{id}` (`update_cart_draft`): 404 if unknown (table
untouched); else merge-patch the parent only — line items are not replaced
by PATCH.  The handler then re-reads the children for the response body
(see `cartDraftResponse`). -/
def update_cart_draft (st : CartState) (cart_draft_id : String)
    (payload : CartDraftPayload) (now_iso : String) :
    Except HttpError CartDraft × CartState :=
  match dbGetCartDraft st cart_draft_id with
  | none => (.error (.notFound "Cart draft not found."), st)
  | some existing =>
    let updated := updatePatchCartDraft existing payload now_iso
    (.ok updated,
     { st with drafts := st.drafts.map (fun d => if d.id == cart_draft_id then updated else d) })

/-- `GET /cart-drafts/{id}` (`get_cart_draft` route): 404 if unknown, else
the draft with its current children; reads never mutate the state. -/
def get_cart_draft (st : CartState) (cart_draft_id : String) :
    Except HttpError (CartDraft × List (CartDraftLineItem × List CartDraftAlternative)) :=
  match dbGetCartDraft st cart_draft_id with
  | none => .error (.notFound "Cart draft not found.")
  | some cart => .ok (cartDraftResponse st cart cart_draft_id)

/-! ## Lemmas about the inventory embedding -/

theorem decRow_product_id (r : InvRow) (pid : String) (q : Int) :
    (decRow r pid q).product_id = r.product_id := by
  unfold decRow; split <;> rfl

theorem invGet_map (g : InvRow → InvRow) (hg : ∀ r, (g r).product_id = r.product_id)
    (inv : List InvRow) (pid : String) :
    invGet (inv.map g) pid = (invGet inv pid).map g := by
  unfold invGet
  rw [List.find?_map]
  have hcomp : ((fun r => r.product_id == pid) ∘ g) = (fun r : InvRow => r.product_id == pid) :=
    funext fun r => by simp [Function.comp, hg]
  rw [hcomp]

theorem map_product_id_map (g : InvRow → InvRow)
    (hg : ∀ r, (g r).product_id = r.product_id) (inv : List InvRow) :
    (inv.map g).map InvRow.product_id = inv.map InvRow.product_id := by
  rw [List.map_map]
  apply List.map_congr_left
  intro r _
  simp [Function.comp, hg]

theorem invGet_condDecTable (inv : List InvRow) (pid pid' : String) (q : Int) :
    invGet (condDecTable inv pid q) pid' =
      (invGet inv pid').map (fun r => decRow r pid q) := by
  unfold condDecTable
  exact invGet_map _ (fun r => decRow_product_id r pid q) inv pid'

theorem map_product_id_condDecTable (inv : List InvRow) (pid : String) (q : Int) :
    (condDecTable inv pid q).map InvRow.product_id = inv.map InvRow.product_id := by
  unfold condDecTable
  exact map_product_id_map _ (fun r => decRow_product_id r pid q) inv

theorem condDecHit_of_invGet (inv : List InvRow) (pid : String) (q : Int) (r : InvRow)
    (hnd : (inv.map InvRow.product_id).Nodup)
    (hrow : invGet inv pid = some r) :
    condDecHit inv pid q = rowMatches r pid q := by
  induction inv with
  | nil => simp [invGet] at hrow
  | cons a tl ih =>
    by_cases ha : a.product_id == pid
    · have hra : a = r := by
        simp only [invGet, List.find?_cons, ha] at hrow
        exact Option.some.inj hrow
      subst hra
      by_cases hm : rowMatches a pid q
      · simp [condDecHit, hm]
      · have hnotl : ∀ x ∈ tl, rowMatches x pid q = false := by
          intro x hx
          have hpid : a.product_id = pid := by simpa using ha
          have hxpid : x.product_id ≠ pid := by
            intro hcontra
            have hmem : a.product_id ∈ tl.map InvRow.product_id := by
              rw [hpid, ← hcontra]
              exact List.mem_map_of_mem _ hx
            exact (List.nodup_cons.mp (by simpa using hnd)).1 hmem
          simp [rowMatches, hxpid]
        have hmf : rowMatches a pid q = false := by simpa using hm
        have hanytl : tl.any (fun x => rowMatches x pid q) = false :=
          List.any_eq_false.mpr (by intro x hx; simp [hnotl x hx])
        simp [condDecHit, hmf, hanytl]
    · have hrow' : invGet tl pid = some r := by
        simpa [invGet, List.find?_cons, ha] using hrow
      have hnd' : (tl.map InvRow.product_id).Nodup :=
        (List.nodup_cons.mp (by simpa using hnd)).2
      have hma : rowMatches a pid q = false := by simp [rowMatches, ha]
      simp only [condDecHit, List.any_cons, hma, Bool.false_or]
      exact ih hnd' hrow'

theorem condDecTable_of_no_match (inv : List InvRow) (pid : String) (q : Int)
    (h : ∀ r ∈ inv, rowMatches r pid q = false) :
    condDecTable inv pid q = inv := by
  unfold condDecTable
  have hid : ∀ r ∈ inv, decRow r pid q = r := by
    intro r hr; unfold decRow; simp [h r hr]
  calc inv.map (fun r => decRow r pid q) = inv.map id :=
        List.map_congr_left (by intro r hr; simp [hid r hr])
    _ = inv := List.map_id inv

theorem no_match_of_condDecHit_false (inv : List InvRow) (pid : String) (q : Int)
    (h : condDecHit inv pid q = false) :
    ∀ r ∈ inv, rowMatches r pid q = false := by
  intro r hr
  have := List.any_eq_false.mp h r hr
  simpa using this

theorem no_pid_of_invGet_none (inv : List InvRow) (pid : String)
    (h : invGet inv pid = none) :
    ∀ r ∈ inv, (r.product_id == pid) = false := by
  intro r hr
  have := List.find?_eq_none.mp h r hr
  simpa using this

theorem reserve_stock_tracked (inv : List InvRow) (pid : String) (q s : Int) (fb : Option Int)
    (hnd : (inv.map InvRow.product_id).Nodup)
    (hrow : invGet inv pid = some ⟨pid, some s⟩) :
    (reserve_stock inv pid q fb).2 = decide (q ≤ s) ∧
    invGet (reserve_stock inv pid q fb).1 pid =
      some ⟨pid, some (if q ≤ s then s - q else s)⟩ ∧
    (reserve_stock inv pid q fb).1.map InvRow.product_id = inv.map InvRow.product_id := by
  have hhit : condDecHit inv pid q = rowMatches ⟨pid, some s⟩ pid q :=
    condDecHit_of_invGet inv pid q _ hnd hrow
  by_cases hqs : q ≤ s
  · have hhit' : condDecHit inv pid q = true := by
      rw [hhit]; simp [rowMatches, hqs]
    have hget1 : invGet (condDecTable inv pid q) pid = some ⟨pid, some (s - q)⟩ := by
      rw [invGet_condDecTable, hrow]
      simp [decRow, rowMatches, hqs]
    refine ⟨?_, ?_, ?_⟩ <;>
      simp [reserve_stock, hhit', hqs, hget1, map_product_id_condDecTable]
  · have hhit' : condDecHit inv pid q = false := by
      rw [hhit]; simp [rowMatches, hqs]
    have hget1 : invGet (condDecTable inv pid q) pid = some ⟨pid, some s⟩ := by
      rw [invGet_condDecTable, hrow]
      simp [decRow, rowMatches, hqs]
    have hnd1 : ((condDecTable inv pid q).map InvRow.product_id).Nodup := by
      rw [map_product_id_condDecTable]; exact hnd
    match fb with
    | none =>
      refine ⟨?_, ?_, ?_⟩ <;>
        simp [reserve_stock, hhit', hqs, hget1, map_product_id_condDecTable]
    | some f =>
      have hhit1 : condDecHit (condDecTable inv pid q) pid q = false := by
        rw [condDecHit_of_invGet _ pid q _ hnd1 hget1]; simp [rowMatches, hqs]
      have hget2 : invGet (condDecTable (condDecTable inv pid q) pid q) pid =
          some ⟨pid, some s⟩ := by
        rw [invGet_condDecTable, hget1]
        simp [decRow, rowMatches, hqs]
      refine ⟨?_, ?_, ?_⟩ <;>
        simp [reserve_stock, hhit', hget1, hqs, hhit1, hget2, map_product_id_condDecTable]

theorem condDecHit_of_uninit (inv : List InvRow) (pid : String) (q : Int)
    (hnd : (inv.map InvRow.product_id).Nodup)
    (hinit : invGet inv pid = none ∨ invGet inv pid = some ⟨pid, none⟩) :
    condDecHit inv pid q = false := by
  rcases hinit with hnone | hnull
  · apply List.any_eq_false.mpr
    intro r hr
    have := no_pid_of_invGet_none inv pid hnone r hr
    simp [rowMatches, this]
  · rw [condDecHit_of_invGet inv pid q _ hnd hnull]
    simp [rowMatches]

theorem reserve_stock_uninit (inv : List InvRow) (pid : String) (q f : Int)
    (hnd : (inv.map InvRow.product_id).Nodup)
    (hinit : invGet inv pid = none ∨ invGet inv pid = some ⟨pid, none⟩) :
    (reserve_stock inv pid q (some f)).2 = decide (q ≤ f) ∧
    invGet (reserve_stock inv pid q (some f)).1 pid =
      some ⟨pid, some (if q ≤ f then f - q else f)⟩ := by
  have hmiss : condDecHit inv pid q = false := condDecHit_of_uninit inv pid q hnd hinit
  have hid : condDecTable inv pid q = inv :=
    condDecTable_of_no_match inv pid q (no_match_of_condDecHit_false inv pid q hmiss)
  rcases hinit with hnone | hnull
  · -- no row for the product: a fresh row seeded with the fallback is inserted
    have hhit2 : condDecHit (inv ++ [⟨pid, some f⟩]) pid q = decide (q ≤ f) := by
      unfold condDecHit
      rw [List.any_append]
      unfold condDecHit at hmiss
      rw [hmiss]
      simp [rowMatches]
    have hget2 : invGet (condDecTable (inv ++ [⟨pid, some f⟩]) pid q) pid =
        some (decRow ⟨pid, some f⟩ pid q) := by
      unfold condDecTable
      rw [List.map_append]
      have hidm : inv.map (fun r => decRow r pid q) = inv := hid
      rw [hidm]
      unfold invGet
      rw [List.find?_append, List.find?_eq_none.mpr (by
        intro r hr
        simpa using no_pid_of_invGet_none inv pid hnone r hr)]
      simp [decRow_product_id]
    refine ⟨?_, ?_⟩ <;>
      simp only [reserve_stock, hmiss, Bool.false_eq_true, if_false, hid, hnone, hhit2, hget2] <;>
      by_cases hqf : q ≤ f <;>
      simp [decRow, rowMatches, hqf]
  · -- row exists with null quantity: it is set to the fallback
    have hget1 : invGet (condDecTable inv pid q) pid = some ⟨pid, none⟩ := by
      rw [invGet_condDecTable, hnull]
      simp [decRow, rowMatches]
    have hpg : ∀ r : InvRow,
        ((if r.product_id == pid then { r with quantity := some f } else r) : InvRow).product_id
          = r.product_id := by
      intro r; split <;> rfl
    have hget2 : invGet (setQuantityTable inv pid f) pid = some ⟨pid, some f⟩ := by
      unfold setQuantityTable
      rw [invGet_map _ hpg, hnull]
      simp
    have hnd2 : ((setQuantityTable inv pid f).map InvRow.product_id).Nodup := by
      unfold setQuantityTable
      rw [map_product_id_map _ hpg]; exact hnd
    have hhit2 : condDecHit (setQuantityTable inv pid f) pid q = decide (q ≤ f) := by
      rw [condDecHit_of_invGet _ pid q _ hnd2 hget2]
      simp [rowMatches]
    have hget3 : invGet (condDecTable (setQuantityTable inv pid f) pid q) pid =
        some (decRow ⟨pid, some f⟩ pid q) := by
      rw [invGet_condDecTable, hget2]
      rfl
    have hset : setQuantityTable (condDecTable inv pid q) pid f = setQuantityTable inv pid f := by
      rw [hid]
    refine ⟨?_, ?_⟩ <;>
      simp only [reserve_stock, hmiss, Bool.false_eq_true, if_false, hid, hnull, hget1,
        hset] <;>
      by_cases hqf : q ≤ f <;>
      simp [hhit2, hget3, decRow, rowMatches, hqf]

/-- **C2.** For every `reserve_stock(product_id, quantity, fallback_quantity)`
call where the initial conditional decrement affects no row and a fallback is
supplied: if no inventory row exists the product gets a new row seeded with
`fallback_quantity`; if a row exists with null quantity it is set to
`fallback_quantity`; in either case the conditional decrement is retried once
and its outcome returned, so the call returns exactly `quantity ≤ fallback`
and leaves `fallback - quantity` (on success) or `fallback` (on failure)
stored.  In particular `quantity=30, fallback=100` on an uninitialized
product returns `true` and leaves `70`. -/
theorem reserve_stock_fallback_seeds_and_retries (inv : List InvRow) (pid : String)
    (q f : Int)
    (hnd : (inv.map InvRow.product_id).Nodup)
    (hinit : invGet inv pid = none ∨ invGet inv pid = some ⟨pid, none⟩)
    (hmiss : condDecHit inv pid q = false) :
    (reserve_stock inv pid q (some f)).2 = decide (q ≤ f) ∧
    invGet (reserve_stock inv pid q (some f)).1 pid =
      some ⟨pid, some (if q ≤ f then f - q else f)⟩ := by
  have _ := hmiss
  exact reserve_stock_uninit inv pid q f hnd hinit

/-- Witness for C2: reserving 30 with fallback 100 against a product whose
row has null quantity returns `true` and stores 70. -/
theorem reserve_stock_fallback_seeds_and_retries_witness :
    ((([⟨"p1", none⟩] : List InvRow).map InvRow.product_id).Nodup ∧
     (invGet [⟨"p1", none⟩] "p1" = none ∨
        invGet [⟨"p1", none⟩] "p1" = some ⟨"p1", none⟩) ∧
     condDecHit [⟨"p1", none⟩] "p1" 30 = false) ∧
    (reserve_stock [⟨"p1", none⟩] "p1" 30 (some 100)).2 = true ∧
    invGet (reserve_stock [⟨"p1", none⟩] "p1" 30 (some 100)).1 "p1" =
      some ⟨"p1", some 70⟩ := by
  have h := reserve_stock_fallback_seeds_and_retries [⟨"p1", none⟩] "p1" 30 100
    (by decide) (by decide) (by decide)
  refine ⟨⟨by decide, by decide, by decide⟩, ?_, ?_⟩
  · rw [h.1]; decide
  · rw [h.2]; decide

/-- **C4.** A `reserve_stock` call whose conditional decrement affects no row
and which has no fallback returns the plain boolean `false` (no error value
exists in its type) and leaves the inventory unchanged. -/
theorem reserve_stock_insufficient_no_fallback (inv : List InvRow) (pid : String)
    (q : Int) (hmiss : condDecHit inv pid q = false) :
    reserve_stock inv pid q none = (inv, false) := by
  have hid : condDecTable inv pid q = inv :=
    condDecTable_of_no_match inv pid q (no_match_of_condDecHit_false inv pid q hmiss)
  simp [reserve_stock, hmiss, hid]

/-- Witness for C4: reserving 10 against a row holding 5 returns `false` and
leaves the table unchanged. -/
theorem reserve_stock_insufficient_no_fallback_witness :
    condDecHit [⟨"p1", some 5⟩] "p1" 10 = false ∧
    reserve_stock [⟨"p1", some 5⟩] "p1" 10 none = ([⟨"p1", some 5⟩], false) := by
  exact ⟨by decide, reserve_stock_insufficient_no_fallback _ _ _ (by decide)⟩

/-- **C9.** A failing `reserve_stock` call can still mutate state: with a
fallback `f`, requested quantity `q > f`, and no row (or a null-quantity
row) for the product, the call returns `false` yet leaves behind a row with
quantity `f`. -/
theorem reserve_stock_failure_leaves_seeded_row (inv : List InvRow) (pid : String)
    (q f : Int)
    (hnd : (inv.map InvRow.product_id).Nodup)
    (hinit : invGet inv pid = none ∨ invGet inv pid = some ⟨pid, none⟩)
    (hqf : f < q) :
    (reserve_stock inv pid q (some f)).2 = false ∧
    invGet (reserve_stock inv pid q (some f)).1 pid = some ⟨pid, some f⟩ := by
  obtain ⟨h1, h2⟩ := reserve_stock_uninit inv pid q f hnd hinit
  have hnle : ¬ q ≤ f := by omega
  constructor
  · rw [h1]; simp [hnle]
  · rw [h2]; simp [hnle]

/-- Witness for C9: reserving 30 with fallback 10 against an absent product
returns `false` but creates a row holding 10. -/
theorem reserve_stock_failure_leaves_seeded_row_witness :
    ((([] : List InvRow).map InvRow.product_id).Nodup ∧
     (invGet [] "p1" = none ∨ invGet [] "p1" = some ⟨"p1", none⟩) ∧
     (10 : Int) < 30) ∧
    (reserve_stock [] "p1" 30 (some 10)).2 = false ∧
    invGet (reserve_stock [] "p1" 30 (some 10)).1 "p1" = some ⟨"p1", some 10⟩ := by
  exact ⟨⟨by decide, Or.inl (by decide), by decide⟩,
    reserve_stock_failure_leaves_seeded_row [] "p1" 30 10 (by decide) (Or.inl (by decide))
      (by decide)⟩

theorem runReservations_tracked (pid : String) (q : Int) (fbs : List (Option Int)) :
    ∀ (inv : List InvRow) (s : Int), 0 ≤ q → 0 ≤ s →
    (inv.map InvRow.product_id).Nodup →
    invGet inv pid = some ⟨pid, some s⟩ →
    invGet (runReservations inv pid q fbs).1 pid
      = some ⟨pid, some (s - q * ((runReservations inv pid q fbs).2 : Int))⟩ ∧
    q * ((runReservations inv pid q fbs).2 : Int) ≤ s ∧
    (runReservations inv pid q fbs).1.map InvRow.product_id = inv.map InvRow.product_id := by
  induction fbs with
  | nil =>
    intro inv s hq hs hnd hrow
    refine ⟨?_, ?_, rfl⟩
    · simpa [runReservations] using hrow
    · simpa [runReservations] using hs
  | cons fb rest ih =>
    intro inv s hq hs hnd hrow
    obtain ⟨hok, hget, hids⟩ := reserve_stock_tracked inv pid q s fb hnd hrow
    have hnd' : ((reserve_stock inv pid q fb).1.map InvRow.product_id).Nodup := by
      rw [hids]; exact hnd
    by_cases hqs : q ≤ s
    · have hok' : (reserve_stock inv pid q fb).2 = true := by rw [hok]; simp [hqs]
      have hget' : invGet (reserve_stock inv pid q fb).1 pid = some ⟨pid, some (s - q)⟩ := by
        rw [hget]; simp [hqs]
      obtain ⟨ih1, ih2, ih3⟩ := ih (reserve_stock inv pid q fb).1 (s - q) hq (by omega) hnd' hget'
      refine ⟨?_, ?_, ?_⟩
      · simp only [runReservations, hok', if_true]
        rw [ih1]
        congr 3
        push_cast
        ring
      · simp only [runReservations, hok', if_true]
        push_cast
        linarith
      · simp only [runReservations]
        rw [ih3, hids]
    · have hok' : (reserve_stock inv pid q fb).2 = false := by rw [hok]; simp [hqs]
      have hget' : invGet (reserve_stock inv pid q fb).1 pid = some ⟨pid, some s⟩ := by
        rw [hget]; simp [hqs]
      obtain ⟨ih1, ih2, ih3⟩ := ih (reserve_stock inv pid q fb).1 s hq hs hnd' hget'
      refine ⟨?_, ?_, ?_⟩
      · simp only [runReservations, hok', if_false]
        rw [ih1]
        congr 3
        push_cast
        ring
      · simp only [runReservations, hok', if_false]
        push_cast
        linarith
      · simp only [runReservations]
        rw [ih3, hids]

/-- **C3.** For every sequence of `reserve_stock` calls against one product
with per-call quantity `q ≥ 0` and starting stored stock `s ≥ 0`: the final
stored quantity equals `s - q * successes`, the total reserved never exceeds
the starting stock (`q * successes ≤ s`, so when `q > 0` at most `⌊s/q⌋`
calls succeed), and along the whole reservation path the stored quantity is
never negative. -/
theorem reserve_stock_sequence_invariant (inv : List InvRow) (pid : String) (q s : Int)
    (fbs : List (Option Int)) (hq : 0 ≤ q) (hs : 0 ≤ s)
    (hnd : (inv.map InvRow.product_id).Nodup)
    (hrow : invGet inv pid = some ⟨pid, some s⟩) :
    invGet (runReservations inv pid q fbs).1 pid
      = some ⟨pid, some (s - q * ((runReservations inv pid q fbs).2 : Int))⟩ ∧
    q * ((runReservations inv pid q fbs).2 : Int) ≤ s ∧
    (0 < q → ((runReservations inv pid q fbs).2 : Int) ≤ s / q) ∧
    (∀ i : Nat, ∃ t : Int, 0 ≤ t ∧
      invGet (runReservations inv pid q (fbs.take i)).1 pid = some ⟨pid, some t⟩) := by
  obtain ⟨h1, h2, _⟩ := runReservations_tracked pid q fbs inv s hq hs hnd hrow
  refine ⟨h1, h2, ?_, ?_⟩
  · intro hq0
    rw [Int.le_ediv_iff_mul_le hq0]
    linarith [h2]
  · intro i
    obtain ⟨g1, g2, _⟩ := runReservations_tracked pid q (fbs.take i) inv s hq hs hnd hrow
    exact ⟨_, by linarith [g2], g1⟩

/-- Witness for C3: starting stock 5, quantity 2, four attempts (one with a
fallback, which is ignored because the row is initialized). -/
theorem reserve_stock_sequence_invariant_witness :
    invGet (runReservations [⟨"p1", some 5⟩] "p1" 2 [none, some 7, none]).1 "p1"
      = some ⟨"p1", some (5 - 2 * ((runReservations [⟨"p1", some 5⟩] "p1" 2
          [none, some 7, none]).2 : Int))⟩ ∧
    2 * ((runReservations [⟨"p1", some 5⟩] "p1" 2 [none, some 7, none]).2 : Int) ≤ 5 ∧
    ((0:Int) < 2 → ((runReservations [⟨"p1", some 5⟩] "p1" 2 [none, some 7, none]).2 : Int)
      ≤ 5 / 2) ∧
    (∀ i : Nat, ∃ t : Int, 0 ≤ t ∧
      invGet (runReservations [⟨"p1", some 5⟩] "p1" 2
        ([none, some 7, none].take i)).1 "p1" = some ⟨"p1", some t⟩) :=
  reserve_stock_sequence_invariant [⟨"p1", some 5⟩] "p1" 2 5 [none, some 7, none]
    (by decide) (by decide) (by decide) (by decide)

/-! ## Lemmas about the agent-run and cart-draft embeddings -/

theorem upsertPatch_eq_updatePatch (r : AgentRun) (p : AgentRunPayload) (now : String) :
    upsertPatchAgentRun r p now = updatePatchAgentRun r p now := rfl

theorem upsertPatchCart_eq_updatePatchCart (d : CartDraft) (p : CartDraftPayload)
    (now : String) :
    upsertPatchCartDraft d p now = updatePatchCartDraft d p now := rfl

theorem updatePatchAgentRun_id (r : AgentRun) (p : AgentRunPayload) (now : String) :
    (updatePatchAgentRun r p now).id = r.id := rfl

theorem updatePatchCartDraft_id (d : CartDraft) (p : CartDraftPayload) (now : String) :
    (updatePatchCartDraft d p now).id = d.id := rfl

theorem dbGetAgentRun_id (tbl : List AgentRun) (i : String) (r : AgentRun)
    (h : dbGetAgentRun tbl i = some r) : r.id = i := by
  have := List.find?_some h
  simpa using this

theorem dbGetCartDraft_id (st : CartState) (i : String) (d : CartDraft)
    (h : dbGetCartDraft st i = some d) : d.id = i := by
  have := List.find?_some h
  simpa using this

theorem dbGetAgentRun_map_replace (tbl : List AgentRun) (i : String)
    (r new : AgentRun) (hfound : dbGetAgentRun tbl i = some r) (hid : new.id = i) :
    dbGetAgentRun (tbl.map (fun x => if x.id == i then new else x)) i = some new := by
  induction tbl with
  | nil => simp [dbGetAgentRun] at hfound
  | cons a tl ih =>
    by_cases ha : (a.id == i) = true
    · unfold dbGetAgentRun
      rw [List.map_cons]
      have hfa : (if a.id == i then new else a) = new := if_pos ha
      rw [hfa]
      exact List.find?_cons_of_pos _ (by simp [hid])
    · have hfound' : dbGetAgentRun tl i = some r := by
        unfold dbGetAgentRun at hfound ⊢
        rwa [List.find?_cons_of_neg _ (by simpa using ha)] at hfound
      unfold dbGetAgentRun at ih ⊢
      rw [List.map_cons]
      have hfa : (if a.id == i then new else a) = a := if_neg (by simpa using ha)
      rw [hfa, List.find?_cons_of_neg _ (by simpa using ha)]
      exact ih hfound'

theorem map_replace_ids (tbl : List AgentRun) (i : String) (new : AgentRun)
    (hid : new.id = i) :
    (tbl.map (fun x => if x.id == i then new else x)).map AgentRun.id =
      tbl.map AgentRun.id := by
  rw [List.map_map]
  apply List.map_congr_left
  intro x _
  by_cases hx : x.id == i
  · have : x.id = i := by simpa using hx
    simp [Function.comp, hx, hid, this]
  · simp [Function.comp, hx]

theorem map_replace_draft_ids (ds : List CartDraft) (i : String) (new : CartDraft)
    (hid : new.id = i) :
    (ds.map (fun x => if x.id == i then new else x)).map CartDraft.id =
      ds.map CartDraft.id := by
  rw [List.map_map]
  apply List.map_congr_left
  intro x _
  by_cases hx : x.id == i
  · have : x.id = i := by simpa using hx
    simp [Function.comp, hx, hid, this]
  · simp [Function.comp, hx]

/-- **C5 counterexample.** A PATCH whose payload carries `created_at` does
not overwrite the stored `created_at`: the handler never applies that field.
Patching `created_at = "2099-01-01"` onto a run created at `"2024-01-01"`
returns (and stores) a record still created at `"2024-01-01"`. -/
theorem update_agent_run_created_at_counterexample :
    ((update_agent_run
        [{ id := "r", user_id := none, device_id := none, recipe_id := some "r1",
           merchant_base_url := none, store_id := none, created_at := "2024-01-01",
           updated_at := "2024-01-01", state := "DISCOVER_MERCHANT", failure_code := none,
           failure_detail := none, cart_draft_id := none, order_id := none }]
        "r" { created_at := some "2099-01-01" } "2025-06-01").1 =
      .ok { id := "r", user_id := none, device_id := none, recipe_id := some "r1",
            merchant_base_url := none, store_id := none, created_at := "2024-01-01",
            updated_at := "2025-06-01", state := "DISCOVER_MERCHANT", failure_code := none,
            failure_detail := none, cart_draft_id := none, order_id := none }) ∧
    ("2024-01-01" : String) ≠ "2099-01-01" := by
  constructor
  · rfl
  · decide

/-- **C5 (amended).** For every PATCH of an existing agent run, each present
payload field among the ten updatable columns (`user_id`, `device_id`,
`recipe_id`, `merchant_base_url`, `store_id`, `state`, `failure_code`,
`failure_detail`, `cart_draft_id`, `order_id`) overwrites the stored value,
`updated_at` is refreshed (to the supplied value if truthy, else to now),
the mutated record is persisted and returned in full — but `created_at` is
never overwritten, even when present in the payload. -/
theorem update_agent_run_present_fields_overwrite
    (tbl : List AgentRun) (i : String) (p : AgentRunPayload) (now : String)
    (r r' : AgentRun)
    (hfound : dbGetAgentRun tbl i = some r)
    (hret : (update_agent_run tbl i p now).1 = .ok r') :
    dbGetAgentRun (update_agent_run tbl i p now).2 i = some r' ∧
    (∀ v, p.user_id = some v → r'.user_id = some v) ∧
    (∀ v, p.device_id = some v → r'.device_id = some v) ∧
    (∀ v, p.recipe_id = some v → r'.recipe_id = some v) ∧
    (∀ v, p.merchant_base_url = some v → r'.merchant_base_url = some v) ∧
    (∀ v, p.store_id = some v → r'.store_id = some v) ∧
    (∀ v, p.state = some v → r'.state = v.value) ∧
    (∀ v, p.failure_code = some v → r'.failure_code = some v) ∧
    (∀ v, p.failure_detail = some v → r'.failure_detail = some v) ∧
    (∀ v, p.cart_draft_id = some v → r'.cart_draft_id = some v) ∧
    (∀ v, p.order_id = some v → r'.order_id = some v) ∧
    r'.updated_at = pyOr p.updated_at now ∧
    r'.created_at = r.created_at := by
  have hr' : r' = updatePatchAgentRun r p now := by
    unfold update_agent_run at hret
    rw [hfound] at hret
    exact (Except.ok.inj hret).symm
  subst hr'
  have hid : (updatePatchAgentRun r p now).id = i := by
    rw [updatePatchAgentRun_id]
    exact dbGetAgentRun_id tbl i r hfound
  refine ⟨?_, ?_, ?_, ?_, ?_, ?_, ?_, ?_, ?_, ?_, ?_, rfl, rfl⟩
  · unfold update_agent_run
    rw [hfound]
    exact dbGetAgentRun_map_replace tbl i r _ hfound hid
  all_goals intro v hv
  all_goals simp [updatePatchAgentRun, hv, Option.or]

/-- Witness for C5 (amended): patching `user_id`, `state` and `updated_at`
onto an existing run overwrites exactly those fields. -/
theorem update_agent_run_present_fields_overwrite_witness :
    dbGetAgentRun (update_agent_run
        [{ id := "r", user_id := none, device_id := none, recipe_id := some "r1",
           merchant_base_url := none, store_id := none, created_at := "2024-01-01",
           updated_at := "2024-01-01", state := "DISCOVER_MERCHANT", failure_code := none,
           failure_detail := none, cart_draft_id := none, order_id := none }]
        "r" { user_id := some "u", state := some .FAILED, updated_at := some "T2" }
        "N").2 "r" =
      some { id := "r", user_id := some "u", device_id := none, recipe_id := some "r1",
             merchant_base_url := none, store_id := none, created_at := "2024-01-01",
             updated_at := "T2", state := "FAILED", failure_code := none,
             failure_detail := none, cart_draft_id := none, order_id := none } ∧
    ({ id := "r", user_id := some "u", device_id := none, recipe_id := some "r1",
       merchant_base_url := none, store_id := none, created_at := "2024-01-01",
       updated_at := "T2", state := "FAILED", failure_code := none,
       failure_detail := none, cart_draft_id := none, order_id := none } : AgentRun).state
      = "FAILED" := by
  have h := update_agent_run_present_fields_overwrite
    [{ id := "r", user_id := none, device_id := none, recipe_id := some "r1",
       merchant_base_url := none, store_id := none, created_at := "2024-01-01",
       updated_at := "2024-01-01", state := "DISCOVER_MERCHANT", failure_code := none,
       failure_detail := none, cart_draft_id := none, order_id := none }]
    "r" { user_id := some "u", state := some .FAILED, updated_at := some "T2" } "N"
    _ _ (by rfl) (by rfl)
  exact ⟨h.1, rfl⟩

/-- **C6 counterexample.** The literal claim "every omitted field is
preserved" fails for `updated_at`: patching only `state` (with `updated_at`
omitted) on a run whose stored `updated_at` is `"2024-01-01"` rewrites
`updated_at` to the current timestamp `"2025-06-01"`.  (The data fields do
behave as claimed: `state` becomes `FAILED`, `recipe_id` stays `"r1"`.) -/
theorem update_agent_run_updated_at_counterexample :
    ((update_agent_run
        [{ id := "r", user_id := none, device_id := none, recipe_id := some "r1",
           merchant_base_url := none, store_id := none, created_at := "2024-01-01",
           updated_at := "2024-01-01", state := "DISCOVER_MERCHANT", failure_code := none,
           failure_detail := none, cart_draft_id := none, order_id := none }]
        "r" { state := some .FAILED } "2025-06-01").1 =
      .ok { id := "r", user_id := none, device_id := none, recipe_id := some "r1",
            merchant_base_url := none, store_id := none, created_at := "2024-01-01",
            updated_at := "2025-06-01", state := "FAILED", failure_code := none,
            failure_detail := none, cart_draft_id := none, order_id := none }) ∧
    ("2025-06-01" : String) ≠ "2024-01-01" := by
  constructor
  · rfl
  · decide

/-- **C6 (amended).** For every PATCH of an existing agent run, every field
omitted from the payload other than `updated_at` keeps its stored value
(`created_at` is always kept), while an omitted `updated_at` is refreshed to
the current timestamp.  E.g. patching only `state` to FAILED on a run with
`recipe_id = "r1"` yields state FAILED with `recipe_id` still `"r1"`. -/
theorem update_agent_run_omitted_fields_preserved
    (tbl : List AgentRun) (i : String) (p : AgentRunPayload) (now : String)
    (r r' : AgentRun)
    (hfound : dbGetAgentRun tbl i = some r)
    (hret : (update_agent_run tbl i p now).1 = .ok r') :
    (p.user_id = none → r'.user_id = r.user_id) ∧
    (p.device_id = none → r'.device_id = r.device_id) ∧
    (p.recipe_id = none → r'.recipe_id = r.recipe_id) ∧
    (p.merchant_base_url = none → r'.merchant_base_url = r.merchant_base_url) ∧
    (p.store_id = none → r'.store_id = r.store_id) ∧
    (p.state = none → r'.state = r.state) ∧
    (p.failure_code = none → r'.failure_code = r.failure_code) ∧
    (p.failure_detail = none → r'.failure_detail = r.failure_detail) ∧
    (p.cart_draft_id = none → r'.cart_draft_id = r.cart_draft_id) ∧
    (p.order_id = none → r'.order_id = r.order_id) ∧
    r'.created_at = r.created_at ∧
    r'.id = r.id ∧
    (p.updated_at = none → r'.updated_at = now) := by
  have hr' : r' = updatePatchAgentRun r p now := by
    unfold update_agent_run at hret
    rw [hfound] at hret
    exact (Except.ok.inj hret).symm
  subst hr'
  refine ⟨?_, ?_, ?_, ?_, ?_, ?_, ?_, ?_, ?_, ?_, rfl, rfl, ?_⟩
  all_goals intro hv
  all_goals simp [updatePatchAgentRun, hv, Option.or, pyOr]

/-- Witness for C6 (amended): patching only `state` leaves `recipe_id` (and
all other omitted data fields) untouched. -/
theorem update_agent_run_omitted_fields_preserved_witness :
    ((none : Option String) = none →
      ({ id := "r", user_id := none, device_id := none, recipe_id := some "r1",
         merchant_base_url := none, store_id := none, created_at := "2024-01-01",
         updated_at := "2025-06-01", state := "FAILED", failure_code := none,
         failure_detail := none, cart_draft_id := none, order_id := none } : AgentRun).recipe_id
        = some "r1") ∧
    ({ id := "r", user_id := none, device_id := none, recipe_id := some "r1",
       merchant_base_url := none, store_id := none, created_at := "2024-01-01",
       updated_at := "2025-06-01", state := "FAILED", failure_code := none,
       failure_detail := none, cart_draft_id := none, order_id := none } : AgentRun).state
      = "FAILED" := by
  have h := update_agent_run_omitted_fields_preserved
    [{ id := "r", user_id := none, device_id := none, recipe_id := some "r1",
       merchant_base_url := none, store_id := none, created_at := "2024-01-01",
       updated_at := "2024-01-01", state := "DISCOVER_MERCHANT", failure_code := none,
       failure_detail := none, cart_draft_id := none, order_id := none }]
    "r" { state := some .FAILED } "2025-06-01" _ _ (by rfl) (by rfl)
  exact ⟨fun _ => h.2.2.1 rfl, rfl⟩

/-- **C7.** GET or PATCH addressed to an agent-run id or cart-draft id with
no record returns NotFound (the 404 `HTTPException`), never a default or
empty record, and leaves the store untouched. -/
theorem unknown_id_returns_not_found
    (rtbl : List AgentRun) (cst : CartState) (i j : String)
    (p : AgentRunPayload) (cp : CartDraftPayload) (now : String)
    (hr : dbGetAgentRun rtbl i = none) (hc : dbGetCartDraft cst j = none) :
    update_agent_run rtbl i p now = (.error (.notFound "Agent run not found."), rtbl) ∧
    get_agent_run rtbl i = .error (.notFound "Agent run not found.") ∧
    update_cart_draft cst j cp now = (.error (.notFound "Cart draft not found."), cst) ∧
    get_cart_draft cst j = .error (.notFound "Cart draft not found.") := by
  refine ⟨?_, ?_, ?_, ?_⟩
  · unfold update_agent_run; rw [hr]
  · unfold get_agent_run; rw [hr]
  · unfold update_cart_draft; rw [hc]
  · unfold get_cart_draft; rw [hc]

/-- Witness for C7: unknown ids against singleton stores. -/
theorem unknown_id_returns_not_found_witness :
    update_agent_run [] "missing" {} "N" =
      (.error (.notFound "Agent run not found."), []) ∧
    get_agent_run [] "missing" = .error (.notFound "Agent run not found.") ∧
    update_cart_draft ⟨[], [], []⟩ "missing" {} "N" =
      (.error (.notFound "Cart draft not found."), ⟨[], [], []⟩) ∧
    get_cart_draft ⟨[], [], []⟩ "missing" =
      .error (.notFound "Cart draft not found.") :=
  unknown_id_returns_not_found [] ⟨[], [], []⟩ "missing" "missing" {} {} "N"
    (by rfl) (by rfl)

/-- **C8.** An agent-run create (no record under the resolved id) generates
the id when the request supplies none, defaults `state` to
DISCOVER_MERCHANT when the request supplies none, stamps `created_at` and
`updated_at` with the current timestamp unless supplied (a supplied
non-empty value is kept), and appends exactly the returned record. -/
theorem upsert_agent_run_create_defaults
    (tbl : List AgentRun) (p : AgentRunPayload) (genId now : String)
    (hnew : dbGetAgentRun tbl (pyOr p.id genId) = none) :
    (p.id = none → (upsert_agent_run tbl p genId now).1.id = genId) ∧
    (p.state = none → (upsert_agent_run tbl p genId now).1.state = "DISCOVER_MERCHANT") ∧
    (p.created_at = none → (upsert_agent_run tbl p genId now).1.created_at = now) ∧
    (∀ v, p.created_at = some v → v ≠ "" →
      (upsert_agent_run tbl p genId now).1.created_at = v) ∧
    (p.updated_at = none → (upsert_agent_run tbl p genId now).1.updated_at = now) ∧
    (∀ v, p.updated_at = some v → v ≠ "" →
      (upsert_agent_run tbl p genId now).1.updated_at = v) ∧
    (upsert_agent_run tbl p genId now).2 = tbl ++ [(upsert_agent_run tbl p genId now).1] := by
  have hrun : upsert_agent_run tbl p genId now =
      (mkAgentRun (pyOr p.id genId) p now, tbl ++ [mkAgentRun (pyOr p.id genId) p now]) := by
    unfold upsert_agent_run
    simp only [hnew]
  rw [hrun]
  refine ⟨?_, ?_, ?_, ?_, ?_, ?_, rfl⟩
  · intro hv; simp [mkAgentRun, pyOr, hv]
  · intro hv; simp [mkAgentRun, hv, AgentRunState.value]
  · intro hv; simp [mkAgentRun, pyOr, hv]
  · intro v hv hne; simp [mkAgentRun, pyOr, hv, hne]
  · intro hv; simp [mkAgentRun, pyOr, hv]
  · intro v hv hne; simp [mkAgentRun, pyOr, hv, hne]

/-- Witness for C8: creating with an empty payload against an empty table. -/
theorem upsert_agent_run_create_defaults_witness :
    (((none : Option String) = none → (upsert_agent_run [] {} "gen-1" "N").1.id = "gen-1") ∧
     ((none : Option AgentRunState) = none →
        (upsert_agent_run [] {} "gen-1" "N").1.state = "DISCOVER_MERCHANT")) ∧
    (upsert_agent_run [] {} "gen-1" "N").1.created_at = "N" ∧
    (upsert_agent_run [] {} "gen-1" "N").1.updated_at = "N" ∧
    (upsert_agent_run [] {} "gen-1" "N").2 =
      [] ++ [(upsert_agent_run [] {} "gen-1" "N").1] := by
  have h := upsert_agent_run_create_defaults [] {} "gen-1" "N" (by rfl)
  exact ⟨⟨h.1, h.2.1⟩, h.2.2.1 rfl, h.2.2.2.2.1 rfl, h.2.2.2.2.2.2⟩

/-- **C10.** POST with an id naming an existing record does not fail and
does not duplicate: for agent runs it performs exactly the merge-patch of
the PATCH endpoint and returns the same record and table; for cart drafts
it performs the PATCH endpoint's parent merge-patch plus the full
child-subtree replacement; in both stores the list of record ids is
unchanged (no duplicate row is created). -/
theorem upsert_with_existing_id_equals_patch
    (rtbl : List AgentRun) (p : AgentRunPayload) (i genId now : String)
    (cst : CartState) (cp : CartUpsertInput) (j cgenId : String)
    (hpid : p.id = some i) (hine : i ≠ "")
    (r : AgentRun) (hr : dbGetAgentRun rtbl i = some r)
    (hcid : cp.cart.id = some j) (hjne : j ≠ "")
    (d : CartDraft) (hc : dbGetCartDraft cst j = some d) :
    (update_agent_run rtbl i p now).1 = .ok (upsert_agent_run rtbl p genId now).1 ∧
    (update_agent_run rtbl i p now).2 = (upsert_agent_run rtbl p genId now).2 ∧
    (upsert_agent_run rtbl p genId now).2.map AgentRun.id = rtbl.map AgentRun.id ∧
    (update_cart_draft cst j cp.cart now).1 = .ok (upsert_cart_draft cst cp cgenId now).1 ∧
    (upsert_cart_draft cst cp cgenId now).2 =
      replace_cart_line_items (update_cart_draft cst j cp.cart now).2 j cp.line_items ∧
    (upsert_cart_draft cst cp cgenId now).2.drafts.map CartDraft.id =
      cst.drafts.map CartDraft.id := by
  have hpy : pyOr p.id genId = i := by rw [hpid]; simp [pyOr, hine]
  have hcpy : pyOr cp.cart.id cgenId = j := by rw [hcid]; simp [pyOr, hjne]
  have hup : upsert_agent_run rtbl p genId now =
      (upsertPatchAgentRun r p now,
       rtbl.map (fun x => if x.id == i then upsertPatchAgentRun r p now else x)) := by
    unfold upsert_agent_run
    simp only [hpy, hr]
  have hupd : update_agent_run rtbl i p now =
      (.ok (updatePatchAgentRun r p now),
       rtbl.map (fun x => if x.id == i then updatePatchAgentRun r p now else x)) := by
    unfold update_agent_run
    simp only [hr]
  have hcup : upsert_cart_draft cst cp cgenId now =
      (upsertPatchCartDraft d cp.cart now,
       replace_cart_line_items
         { cst with drafts :=
            cst.drafts.map (fun x => if x.id == j then upsertPatchCartDraft d cp.cart now else x) }
         j cp.line_items) := by
    unfold upsert_cart_draft
    simp only [hcpy, hc]
  have hcupd : update_cart_draft cst j cp.cart now =
      (.ok (updatePatchCartDraft d cp.cart now),
       { cst with drafts :=
          cst.drafts.map (fun x => if x.id == j then updatePatchCartDraft d cp.cart now else x) }) := by
    unfold update_cart_draft
    simp only [hc]
  have hrid : (upsertPatchAgentRun r p now).id = i := by
    rw [upsertPatch_eq_updatePatch, updatePatchAgentRun_id]
    exact dbGetAgentRun_id rtbl i r hr
  have hdid : (upsertPatchCartDraft d cp.cart now).id = j := by
    rw [upsertPatchCart_eq_updatePatchCart, updatePatchCartDraft_id]
    exact dbGetCartDraft_id cst j d hc
  refine ⟨?_, ?_, ?_, ?_, ?_, ?_⟩
  · rw [hup, hupd]
    exact congrArg Except.ok (upsertPatch_eq_updatePatch r p now).symm
  · rw [hup, hupd]
    rw [upsertPatch_eq_updatePatch]
  · rw [hup]
    exact map_replace_ids rtbl i _ hrid
  · rw [hcup, hcupd]
    exact congrArg Except.ok (upsertPatchCart_eq_updatePatchCart d cp.cart now).symm
  · rw [hcup, hcupd]
    rw [upsertPatchCart_eq_updatePatchCart]
  · rw [hcup]
    exact map_replace_draft_ids cst.drafts j _ hdid

/-- Witness for C10: POST against a one-run table and a one-draft state,
both with the already-present id. -/
theorem upsert_with_existing_id_equals_patch_witness :
    (update_agent_run
        [{ id := "r", user_id := none, device_id := none, recipe_id := none,
           merchant_base_url := none, store_id := none, created_at := "T0",
           updated_at := "T0", state := "DISCOVER_MERCHANT", failure_code := none,
           failure_detail := none, cart_draft_id := none, order_id := none }]
        "r" { id := some "r", state := some .FAILED } "N").1 =
      .ok (upsert_agent_run
        [{ id := "r", user_id := none, device_id := none, recipe_id := none,
           merchant_base_url := none, store_id := none, created_at := "T0",
           updated_at := "T0", state := "DISCOVER_MERCHANT", failure_code := none,
           failure_detail := none, cart_draft_id := none, order_id := none }]
        { id := some "r", state := some .FAILED } "gen-1" "N").1 ∧
    (upsert_cart_draft
        ⟨[{ id := "c", agent_run_id := none, recipe_id := none, servings := none,
            pantry_items_removed := none, policies := none, quote_summary := none,
            checkout_session_id := none, cart_hash := none, quote_hash := none,
            created_at := "T0", updated_at := "T0" }], [], []⟩
        { cart := { id := some "c", servings := some 4 }, line_items := [] }
        "gen-2" "N").2 =
      replace_cart_line_items
        (update_cart_draft
          ⟨[{ id := "c", agent_run_id := none, recipe_id := none, servings := none,
              pantry_items_removed := none, policies := none, quote_summary := none,
              checkout_session_id := none, cart_hash := none, quote_hash := none,
              created_at := "T0", updated_at := "T0" }], [], []⟩
          "c" { id := some "c", servings := some 4 } "N").2
        "c" [] := by
  have h := upsert_with_existing_id_equals_patch
    [{ id := "r", user_id := none, device_id := none, recipe_id := none,
       merchant_base_url := none, store_id := none, created_at := "T0",
       updated_at := "T0", state := "DISCOVER_MERCHANT", failure_code := none,
       failure_detail := none, cart_draft_id := none, order_id := none }]
    { id := some "r", state := some .FAILED } "r" "gen-1" "N"
    ⟨[{ id := "c", agent_run_id := none, recipe_id := none, servings := none,
        pantry_items_removed := none, policies := none, quote_summary := none,
        checkout_session_id := none, cart_hash := none, quote_hash := none,
        created_at := "T0", updated_at := "T0" }], [], []⟩
    { cart := { id := some "c", servings := some 4 }, line_items := [] } "c" "gen-2"
    rfl (by decide)
    _ (by rfl)
    rfl (by decide)
    _ (by rfl)
  exact ⟨h.1, h.2.2.2.2.1⟩

theorem mkLineItem_cart_draft_id (cid : String) (l : LineItemInput) :
    (mkLineItem cid l).cart_draft_id = cid := rfl

theorem mkAlternative_line_item_id (lid : String) (a : AltInput) :
    (mkAlternative lid a).line_item_id = lid := rfl

theorem filter_flatMap_alts (lines : List LineItemInput) (l : LineItemInput)
    (hl : l ∈ lines) (hnodup : (lines.map LineItemInput.id).Nodup) :
    (lines.flatMap (fun x => x.alternatives.map (fun a => mkAlternative x.id a))).filter
      (fun a => a.line_item_id == l.id)
    = l.alternatives.map (fun a => mkAlternative l.id a) := by
  induction lines with
  | nil => simp at hl
  | cons x rest ih =>
    rw [List.flatMap_cons, List.filter_append]
    have hx_notin : x.id ∉ rest.map LineItemInput.id :=
      (List.nodup_cons.mp (by simpa using hnodup)).1
    rcases List.mem_cons.mp hl with heq | hmem
    · subst heq
      have h1 : (l.alternatives.map (fun a => mkAlternative l.id a)).filter
          (fun a => a.line_item_id == l.id)
          = l.alternatives.map (fun a => mkAlternative l.id a) := by
        apply List.filter_eq_self.mpr
        intro a ha
        obtain ⟨a0, _, rfl⟩ := List.mem_map.mp ha
        simp [mkAlternative]
      have h2 : (rest.flatMap (fun x => x.alternatives.map (fun a => mkAlternative x.id a))).filter
          (fun a => a.line_item_id == l.id) = [] := by
        apply List.filter_eq_nil_iff.mpr
        intro a ha
        obtain ⟨x0, hx0, ha0⟩ := List.mem_flatMap.mp ha
        obtain ⟨a0, _, rfl⟩ := List.mem_map.mp ha0
        have hxid : x0.id ≠ l.id := by
          intro hcontra
          exact hx_notin (hcontra ▸ List.mem_map_of_mem _ hx0)
        simp [mkAlternative, hxid]
      rw [h1, h2, List.append_nil]
    · have hxid : x.id ≠ l.id := by
        intro hcontra
        exact hx_notin (hcontra ▸ List.mem_map_of_mem _ hmem)
      have h1 : (x.alternatives.map (fun a => mkAlternative x.id a)).filter
          (fun a => a.line_item_id == l.id) = [] := by
        apply List.filter_eq_nil_iff.mpr
        intro a ha
        obtain ⟨a0, _, rfl⟩ := List.mem_map.mp ha
        simp [mkAlternative, hxid]
      rw [h1, List.nil_append]
      exact ih hmem (List.nodup_cons.mp (by simpa using hnodup)).2

theorem replace_cart_line_items_spec (st : CartState) (cid : String)
    (lines : List LineItemInput)
    (hnodup : (lines.map LineItemInput.id).Nodup)
    (hfk : ∀ a ∈ st.alternatives, ∃ li ∈ st.lineItems, a.line_item_id = li.id)
    (hfresh : ∀ l ∈ lines, ∀ li ∈ st.lineItems, li.id = l.id → li.cart_draft_id = cid) :
    get_cart_draft_line_items (replace_cart_line_items st cid lines) cid
      = lines.map (fun l => mkLineItem cid l) ∧
    (∀ l ∈ lines,
      get_cart_draft_alternatives (replace_cart_line_items st cid lines) l.id
        = l.alternatives.map (fun a => mkAlternative l.id a)) ∧
    (∀ li ∈ get_cart_draft_line_items st cid, li.id ∉ lines.map LineItemInput.id →
      get_cart_draft_alternatives (replace_cart_line_items st cid lines) li.id = []) := by
  have hrepl : replace_cart_line_items st cid lines =
      { st with
        lineItems := st.lineItems.filter (fun li => !(li.cart_draft_id == cid))
          ++ lines.map (fun l => mkLineItem cid l)
        alternatives := st.alternatives.filter
            (fun a => !(((get_cart_draft_line_items st cid).map
                (fun item => item.id)).contains a.line_item_id))
          ++ lines.flatMap (fun l => l.alternatives.map (fun a => mkAlternative l.id a)) } := rfl
  refine ⟨?_, ?_, ?_⟩
  · rw [hrepl]
    unfold get_cart_draft_line_items
    rw [List.filter_append]
    have hA : (st.lineItems.filter (fun li => !(li.cart_draft_id == cid))).filter
        (fun li => li.cart_draft_id == cid) = [] := by
      apply List.filter_eq_nil_iff.mpr
      intro li hli
      have hneg := (List.mem_filter.mp hli).2
      simpa using hneg
    have hB : (lines.map (fun l => mkLineItem cid l)).filter
        (fun li => li.cart_draft_id == cid) = lines.map (fun l => mkLineItem cid l) := by
      apply List.filter_eq_self.mpr
      intro li hli
      obtain ⟨l0, _, rfl⟩ := List.mem_map.mp hli
      simp [mkLineItem]
    rw [hA, hB, List.nil_append]
  · intro l hl
    rw [hrepl]
    unfold get_cart_draft_alternatives
    rw [List.filter_append]
    have hC : (st.alternatives.filter
        (fun a => !(((get_cart_draft_line_items st cid).map
            (fun item => item.id)).contains a.line_item_id))).filter
        (fun a => a.line_item_id == l.id) = [] := by
      apply List.filter_eq_nil_iff.mpr
      intro a ha
      obtain ⟨haSt, hsur⟩ := List.mem_filter.mp ha
      have hsur' : a.line_item_id ∉ (get_cart_draft_line_items st cid).map
          (fun item => item.id) := by simpa using hsur
      intro hEq
      have hEq' : a.line_item_id = l.id := by simpa using hEq
      obtain ⟨li, hli, hali⟩ := hfk a haSt
      have hlid : li.id = l.id := by rw [← hali, hEq']
      have hcd : li.cart_draft_id = cid := hfresh l hl li hli hlid
      have hliF : li ∈ get_cart_draft_line_items st cid := by
        unfold get_cart_draft_line_items
        exact List.mem_filter.mpr ⟨hli, by simp [hcd]⟩
      exact hsur' (hali ▸ List.mem_map_of_mem (fun item => item.id) hliF)
    rw [hC, List.nil_append]
    exact filter_flatMap_alts lines l hl hnodup
  · intro li hli hnot
    rw [hrepl]
    unfold get_cart_draft_alternatives
    rw [List.filter_append]
    have hC : (st.alternatives.filter
        (fun a => !(((get_cart_draft_line_items st cid).map
            (fun item => item.id)).contains a.line_item_id))).filter
        (fun a => a.line_item_id == li.id) = [] := by
      apply List.filter_eq_nil_iff.mpr
      intro a ha
      obtain ⟨_, hsur⟩ := List.mem_filter.mp ha
      have hsur' : a.line_item_id ∉ (get_cart_draft_line_items st cid).map
          (fun item => item.id) := by simpa using hsur
      intro hEq
      have hEq' : a.line_item_id = li.id := by simpa using hEq
      exact hsur' (hEq' ▸ List.mem_map_of_mem (fun item => item.id) hli)
    have hD : (lines.flatMap (fun l => l.alternatives.map (fun a => mkAlternative l.id a))).filter
        (fun a => a.line_item_id == li.id) = [] := by
      apply List.filter_eq_nil_iff.mpr
      intro a ha
      obtain ⟨x0, hx0, ha0⟩ := List.mem_flatMap.mp ha
      obtain ⟨a0, _, rfl⟩ := List.mem_map.mp ha0
      have hxid : x0.id ≠ li.id := by
        intro hcontra
        exact hnot (hcontra ▸ List.mem_map_of_mem _ hx0)
      simp [mkAlternative, hxid]
    rw [hC, hD, List.nil_append]

/-- **C1.** For every cart-draft upsert (create or update), assuming the
primary-key/foreign-key discipline the store enforces (supplied line-item
ids pairwise distinct, every stored alternative referencing a stored line
item, and no supplied id colliding with a line item of a different draft),
the persisted line items of the draft afterwards are exactly the supplied
ones, each new line item's persisted alternatives are exactly the supplied
ones, and any prior line item not resupplied has no remaining alternatives
— no item from a prior version survives unless resupplied. -/
theorem upsert_cart_draft_replaces_subtree
    (st : CartState) (p : CartUpsertInput) (genId now : String)
    (hnodup : (p.line_items.map LineItemInput.id).Nodup)
    (hfk : ∀ a ∈ st.alternatives, ∃ li ∈ st.lineItems, a.line_item_id = li.id)
    (hfresh : ∀ l ∈ p.line_items, ∀ li ∈ st.lineItems,
        li.id = l.id → li.cart_draft_id = pyOr p.cart.id genId) :
    get_cart_draft_line_items (upsert_cart_draft st p genId now).2 (pyOr p.cart.id genId)
      = p.line_items.map (fun l => mkLineItem (pyOr p.cart.id genId) l) ∧
    (∀ l ∈ p.line_items,
      get_cart_draft_alternatives (upsert_cart_draft st p genId now).2 l.id
        = l.alternatives.map (fun a => mkAlternative l.id a)) ∧
    (∀ li ∈ get_cart_draft_line_items st (pyOr p.cart.id genId),
      li.id ∉ p.line_items.map LineItemInput.id →
      get_cart_draft_alternatives (upsert_cart_draft st p genId now).2 li.id = []) := by
  cases hd : dbGetCartDraft st (pyOr p.cart.id genId) with
  | some existing =>
    have h2 : (upsert_cart_draft st p genId now).2 =
        replace_cart_line_items
          { st with drafts := st.drafts.map (fun x =>
              if x.id == pyOr p.cart.id genId then upsertPatchCartDraft existing p.cart now
              else x) }
          (pyOr p.cart.id genId) p.line_items := by
      unfold upsert_cart_draft
      simp only [hd]
    rw [h2]
    exact replace_cart_line_items_spec _ _ _ hnodup hfk hfresh
  | none =>
    have h2 : (upsert_cart_draft st p genId now).2 =
        replace_cart_line_items
          { st with drafts := st.drafts ++ [mkCartDraft (pyOr p.cart.id genId) p.cart now] }
          (pyOr p.cart.id genId) p.line_items := by
      unfold upsert_cart_draft
      simp only [hd]
    rw [h2]
    exact replace_cart_line_items_spec _ _ _ hnodup hfk hfresh

/-- Witness for C1: a draft holding two line items (each with one
alternative) is re-upserted with a single fresh line item carrying one
alternative; afterwards exactly that line item (with exactly its
alternative) is persisted and the dropped items' alternatives are gone. -/
theorem upsert_cart_draft_replaces_subtree_witness :
    get_cart_draft_line_items (upsert_cart_draft
        ⟨[{ id := "c1", agent_run_id := none, recipe_id := none, servings := none,
            pantry_items_removed := none, policies := none, quote_summary := none,
            checkout_session_id := none, cart_hash := none, quote_hash := none,
            created_at := "T0", updated_at := "T0" }],
         [{ id := "li1", cart_draft_id := "c1", ingredient_key := "milk",
            canonical_ingredient_json := none, primary_sku_json := none, quantity := 1,
            unit := none, confidence := none, chosen_reason := none,
            substitution_policy_json := none, line_total_cents := none },
          { id := "li2", cart_draft_id := "c1", ingredient_key := "eggs",
            canonical_ingredient_json := none, primary_sku_json := none, quantity := 2,
            unit := none, confidence := none, chosen_reason := none,
            substitution_policy_json := none, line_total_cents := none }],
         [{ id := "a1", line_item_id := "li1", rank := 1, sku_json := none,
            score_breakdown_json := none, reason := none, confidence := none },
          { id := "a2", line_item_id := "li2", rank := 1, sku_json := none,
            score_breakdown_json := none, reason := none, confidence := none }]⟩
        { cart := { id := some "c1" },
          line_items := [{ id := "li3", ingredient_key := "milk", quantity := 1,
                           alternatives := [{ id := "a3", rank := 1 }] }] }
        "gen" "N").2 (pyOr (some "c1") "gen")
      = ([{ id := "li3", ingredient_key := "milk", quantity := 1,
            alternatives := [{ id := "a3", rank := 1 }] }] : List LineItemInput).map
          (fun l => mkLineItem (pyOr (some "c1") "gen") l) ∧
    (∀ l ∈ ([{ id := "li3", ingredient_key := "milk", quantity := 1,
               alternatives := [{ id := "a3", rank := 1 }] }] : List LineItemInput),
      get_cart_draft_alternatives (upsert_cart_draft
        ⟨[{ id := "c1", agent_run_id := none, recipe_id := none, servings := none,
            pantry_items_removed := none, policies := none, quote_summary := none,
            checkout_session_id := none, cart_hash := none, quote_hash := none,
            created_at := "T0", updated_at := "T0" }],
         [{ id := "li1", cart_draft_id := "c1", ingredient_key := "milk",
            canonical_ingredient_json := none, primary_sku_json := none, quantity := 1,
            unit := none, confidence := none, chosen_reason := none,
            substitution_policy_json := none, line_total_cents := none },
          { id := "li2", cart_draft_id := "c1", ingredient_key := "eggs",
            canonical_ingredient_json := none, primary_sku_json := none, quantity := 2,
            unit := none, confidence := none, chosen_reason := none,
            substitution_policy_json := none, line_total_cents := none }],
         [{ id := "a1", line_item_id := "li1", rank := 1, sku_json := none,
            score_breakdown_json := none, reason := none, confidence := none },
          { id := "a2", line_item_id := "li2", rank := 1, sku_json := none,
            score_breakdown_json := none, reason := none, confidence := none }]⟩
        { cart := { id := some "c1" },
          line_items := [{ id := "li3", ingredient_key := "milk", quantity := 1,
                           alternatives := [{ id := "a3", rank := 1 }] }] }
        "gen" "N").2 l.id
        = l.alternatives.map (fun a => mkAlternative l.id a)) := by
  have h := upsert_cart_draft_replaces_subtree
    ⟨[{ id := "c1", agent_run_id := none, recipe_id := none, servings := none,
        pantry_items_removed := none, policies := none, quote_summary := none,
        checkout_session_id := none, cart_hash := none, quote_hash := none,
        created_at := "T0", updated_at := "T0" }],
     [{ id := "li1", cart_draft_id := "c1", ingredient_key := "milk",
        canonical_ingredient_json := none, primary_sku_json := none, quantity := 1,
        unit := none, confidence := none, chosen_reason := none,
        substitution_policy_json := none, line_total_cents := none },
      { id := "li2", cart_draft_id := "c1", ingredient_key := "eggs",
        canonical_ingredient_json := none, primary_sku_json := none, quantity := 2,
        unit := none, confidence := none, chosen_reason := none,
        substitution_policy_json := none, line_total_cents := none }],
     [{ id := "a1", line_item_id := "li1", rank := 1, sku_json := none,
        score_breakdown_json := none, reason := none, confidence := none },
      { id := "a2", line_item_id := "li2", rank := 1, sku_json := none,
        score_breakdown_json := none, reason := none, confidence := none }]⟩
    { cart := { id := some "c1" },
      line_items := [{ id := "li3", ingredient_key := "milk", quantity := 1,
                       alternatives := [{ id := "a3", rank := 1 }] }] }
    "gen" "N" (by decide) (by decide) (by decide)
  exact ⟨h.1, h.2.1⟩
